import Mathlib

/-!
Verification of the Telegram escrow bot (src/escrow.py, src/payment.py,
src/admin.py, src/start.py) against its natural-language specification.

The conversation handlers and the deal-lifecycle handlers are shallowly
embedded as pure functions over an explicit store and an explicit per-user
session.  The deal store (utils.database) and the authorization gate
(utils.security) are not part of the provided sources; they are modelled
from the specification as noted on each definition.
-/

namespace EscrowBot

set_option maxRecDepth 100000

/-- Deal lifecycle statuses, exactly the five status strings used by the
handlers. -/
inductive DealStatus
  | created
  | funded
  | completed
  | disputed
  | cancelled
  deriving DecidableEq, Repr

/-- The result of a successful Python float conversion: a finite value,
NaN, or a signed infinity.  Finite values are kept as exact rationals. -/
inductive PyFloat
  | num (q : Rat)
  | nan
  | inf
  | ninf
  deriving DecidableEq, Repr

/-- A deal record as created by the deal store. -/
structure Deal where
  deal_id : String
  creator_id : Nat
  description : String
  amount : PyFloat
  terms : String
  status : DealStatus
  deriving DecidableEq, Repr

/-- A payment record as created by create_payment_record.  The amount comes
from the session via data.get, hence it is optional. -/
structure PaymentRecord where
  deal_id : String
  payer_id : Nat
  amount : Option PyFloat
  payment_method : String
  reference_id : String
  status : String
  deriving DecidableEq, Repr

/-- The durable deal store: deals and payment records. -/
structure Store where
  deals : List Deal
  payments : List PaymentRecord
  deriving DecidableEq, Repr

/-- Modelled from the spec: the deal store operation getDeal, a read keyed by
deal id (utils.database.get_deal is not under src). -/
def get_deal (st : Store) (id : String) : Option Deal :=
  st.deals.find? (fun d => d.deal_id == id)

/-- Modelled from the spec: the deal store operation updateStatus, a single
atomic status write keyed by deal id; no other field changes
(utils.database.update_deal_status is not under src). -/
def update_deal_status (st : Store) (id : String) (ns : DealStatus) : Store :=
  { st with
    deals := st.deals.map (fun d => if d.deal_id == id then { d with status := ns } else d) }

/-- Modelled from the spec: the deal store operation createDeal; a
materialized deal enters the lifecycle in status created
(utils.database.create_deal is not under src). -/
def create_deal (st : Store) (id : String) (creator : Nat) (desc : String)
    (amt : PyFloat) (trm : String) : Store :=
  { st with deals := st.deals ++ [⟨id, creator, desc, amt, trm, DealStatus.created⟩] }

/-- Modelled from the spec: the deal store operation createPaymentRecord
(utils.database.create_payment_record is not under src). -/
def create_payment_record (st : Store) (r : PaymentRecord) : Store :=
  { st with payments := st.payments ++ [r] }

/-- Conversation stages of the two aiogram state groups DealStates and
PaymentStates. -/
inductive ConvState
  | waiting_for_description
  | waiting_for_amount
  | waiting_for_terms
  | waiting_for_confirmation
  | waiting_for_payment_proof
  | waiting_for_upi_ref
  deriving DecidableEq, Repr

/-- The fields accumulated in the FSM context by state.update_data calls. -/
structure SessionData where
  description : Option String := none
  amount : Option PyFloat := none
  terms : Option String := none
  deal_id : Option String := none
  pay_amount : Option PyFloat := none
  deriving DecidableEq, Repr

/-- A per-user conversation session: the current FSM state and its data. -/
structure Session where
  conv : Option ConvState := none
  data : SessionData := {}
  deriving DecidableEq, Repr

/-- The session after state.clear: no stage, no data. -/
def clearedSession : Session := {}

/-- A log entry for each write the handler issues against the deal store. -/
inductive StoreWrite
  | createDealW (id : String)
  | updateStatusW (id : String) (ns : DealStatus)
  | createPaymentW (id : String)
  deriving DecidableEq, Repr

/-- The result of one handler turn: the store and session afterwards, the
user-visible replies, and the log of store writes issued. -/
structure HandlerResult where
  store : Store
  session : Session
  replies : List String
  writes : List StoreWrite
  deriving DecidableEq, Repr

/-- Python str.strip: drop whitespace from both ends. -/
def pyStrip (s : String) : String :=
  String.mk (((s.data.dropWhile Char.isWhitespace).reverse.dropWhile Char.isWhitespace).reverse)

/-- Python str.replace applied with an empty replacement for the comma, as in
text.replace in process_amount: every comma is removed. -/
def removeCommas (s : String) : String :=
  String.mk (s.data.filter (fun c => c != ','))

/-- Character count of a string. -/
def pyLen (s : String) : Nat :=
  s.data.length

/-- Value of a digit list read in base 10. -/
def digitsVal (cs : List Char) : Nat :=
  cs.foldl (fun a c => a * 10 + (c.toNat - 48)) 0

/-- Tail of a digit run in which single underscores may stand strictly
between digits, as Python numeric strings permit. -/
def digitsTail : List Char → Bool
  | [] => true
  | '_' :: c :: rest => c.isDigit && digitsTail rest
  | c :: rest => c.isDigit && digitsTail rest

/-- A nonempty digit run with single underscores strictly between digits:
the digit-group shape Python accepts, rejecting leading, trailing or
doubled underscores. -/
def digitsU (cs : List Char) : Bool :=
  match cs with
  | [] => false
  | c :: rest => c.isDigit && digitsTail rest

/-- Numeric value of a digit run after discarding its underscores. -/
def uval (cs : List Char) : Nat :=
  digitsVal (cs.filter (fun c => c != '_'))

/-- Number of digits of a digit run, underscores excluded. -/
def digitCount (cs : List Char) : Nat :=
  (cs.filter (fun c => c != '_')).length

/-- Parse an unsigned mantissa: digits, optionally followed by a point and
optional further digits, or a point followed by digits, with at least one
digit overall and underscores only between digits.  The result is the pair
of the scaled numerator and the power-of-ten denominator. -/
def parseMant (cs : List Char) : Option (Nat × Nat) :=
  let (ip, rest) := cs.span (fun c => c != '.')
  match rest with
  | [] => if digitsU ip then some (uval ip, 1) else none
  | _ :: fp =>
      if ip.isEmpty then
        if digitsU fp then some (uval fp, 10 ^ digitCount fp) else none
      else
        if digitsU ip && (fp.isEmpty || digitsU fp) then
          some (uval ip * 10 ^ digitCount fp + uval fp, 10 ^ digitCount fp)
        else none

/-- Parse the part after the exponent marker: an optional sign and a digit
run. -/
def parseExpPart (cs : List Char) : Option Int :=
  match cs with
  | '+' :: r => if digitsU r then some ((uval r : Int)) else none
  | '-' :: r => if digitsU r then some (-((uval r : Int))) else none
  | r => if digitsU r then some ((uval r : Int)) else none

/-- Parse an unsigned numeral with an optional exponent, returning the
scaled numerator and denominator. -/
def parseNum (cs : List Char) : Option (Nat × Nat) :=
  let (mant, rest) := cs.span (fun c => c != 'e' && c != 'E')
  match rest with
  | [] => parseMant mant
  | _ :: ex =>
      match parseMant mant, parseExpPart ex with
      | some nd, some x =>
          if 0 ≤ x then some (nd.1 * 10 ^ x.toNat, nd.2)
          else some (nd.1, nd.2 * 10 ^ (-x).toNat)
      | _, _ => none

/-- Model of the Python float conversion used by process_amount: an optional
sign followed by either the case-insensitive special words nan, inf or
infinity, or a decimal numeral with optional fraction, optional exponent and
single underscores between digits; any other shape raises ValueError,
modelled as none.  Finite values are kept exact rather than rounded to
binary doubles. -/
def parseFloat (s : String) : Option PyFloat :=
  let (neg, cs) :=
    match s.data with
    | '-' :: r => (true, r)
    | '+' :: r => (false, r)
    | r => (false, r)
  let low := cs.map Char.toLower
  if low = ['n', 'a', 'n'] then some PyFloat.nan
  else if low = ['i', 'n', 'f'] ∨ low = ['i', 'n', 'f', 'i', 'n', 'i', 't', 'y'] then
    some (if neg then PyFloat.ninf else PyFloat.inf)
  else
    (parseNum cs).map (fun nd =>
      PyFloat.num (Rat.divInt (if neg then -((nd.1 : Int)) else (nd.1 : Int)) (nd.2 : Int)))

/-- The comparison lt applied to a parsed float and an integer bound, as
CPython evaluates it in process_amount: NaN compares false against every
bound, positive infinity is below no bound, negative infinity below every
bound. -/
def pfLt (x : PyFloat) (c : Rat) : Bool :=
  match x with
  | PyFloat.num q => decide (q < c)
  | PyFloat.nan => false
  | PyFloat.inf => false
  | PyFloat.ninf => true

/-- The comparison gt applied to a parsed float and an integer bound, as
CPython evaluates it in process_amount: NaN compares false against every
bound, positive infinity exceeds every bound, negative infinity none. -/
def pfGt (x : PyFloat) (c : Rat) : Bool :=
  match x with
  | PyFloat.num q => decide (c < q)
  | PyFloat.nan => false
  | PyFloat.inf => true
  | PyFloat.ninf => false

/-- Deal id generation in confirm_deal_creation: first 8 characters of the
uuid string, upper-cased. -/
def genDealId (uuid : String) : String :=
  String.mk ((uuid.data.take 8).map Char.toUpper)

/-- Payment id generation in process_payment_proof: first 12 characters of
the uuid string, upper-cased. -/
def genPaymentId (uuid : String) : String :=
  String.mk ((uuid.data.take 12).map Char.toUpper)

def msgDescTooShort : String := "Description too short. Please provide at least 10 characters."
def msgDescTooLong : String := "Description too long. Please keep it under 500 characters."
def msgStepAmount : String := "Step 2 of 3: Amount"
def msgInvalidAmount : String := "Invalid amount. Please enter a valid number."
def msgMinAmount : String := "Minimum amount is 100"
def msgMaxAmount : String := "Maximum amount is 500000"
def msgStepTerms : String := "Step 3 of 3: Terms and Conditions"
def msgTermsTooShort : String := "Terms too short. Please provide at least 20 characters."
def msgTermsTooLong : String := "Terms too long. Please keep it under 1000 characters."
def msgConfirmSummary : String := "Deal Confirmation"
def msgDealCreated : String := "Deal created successfully."
def msgMissingFields : String := "Internal error: missing collected fields."
def msgDealNotFound : String := "Deal not found."
def msgNotAvailable : String := "Deal is not available for payment."
def msgPaymentInitiated : String := "Payment initiated."
def msgQrRefreshed : String := "QR code refreshed."
def msgSessionExpired : String := "Session expired. Please try again."
def msgPaymentReceived : String := "Payment received. Funds secured in escrow."
def msgRefTooShort : String := "Please provide a valid UPI reference ID of minimum 8 characters."
def msgPaymentVerified : String := "Payment verified. Funds secured in escrow."
def msgSendProof : String := "Please send a screenshot or UPI reference ID."
def msgNotReadyForRelease : String := "Deal is not ready for payment release."
def msgPaymentReleased : String := "Payment released."
def msgDisputeCreated : String := "Dispute created. Admin notified."
def msgAccessDenied : String := "Access denied."
def msgDisputeResolved : String := "Dispute resolved."
def msgDealCancelled : String := "Deal cancelled."

/-- Embedding of process_description (src/escrow.py lines 56 to 92): strip
the text, reject when the stripped length is below 10 or above 500 without
touching the session, otherwise store the description and advance to the
amount stage. -/
def process_description (st : Store) (s : Session) (text : String) : HandlerResult :=
  let description := pyStrip text
  if pyLen description < 10 then
    ⟨st, s, [msgDescTooShort], []⟩
  else if pyLen description > 500 then
    ⟨st, s, [msgDescTooLong], []⟩
  else
    ⟨st,
      { conv := some ConvState.waiting_for_amount,
        data := { s.data with description := some description } },
      [msgStepAmount], []⟩

/-- Embedding of process_amount (src/escrow.py lines 94 to 137): parse the
stripped, de-comma-ed text with float; a parse failure is the ValueError
branch, an amount comparing below 100 or above 500000 is rejected, otherwise
the amount is stored as parsed and the session advances to the terms stage.
Both comparisons are false on NaN, so a NaN amount falls through to the
accepting branch exactly as in CPython. -/
def process_amount (st : Store) (s : Session) (text : String) : HandlerResult :=
  match parseFloat (removeCommas (pyStrip text)) with
  | none => ⟨st, s, [msgInvalidAmount], []⟩
  | some amount =>
      if pfLt amount 100 then
        ⟨st, s, [msgMinAmount], []⟩
      else if pfGt amount 500000 then
        ⟨st, s, [msgMaxAmount], []⟩
      else
        ⟨st,
          { conv := some ConvState.waiting_for_terms,
            data := { s.data with amount := some amount } },
          [msgStepTerms], []⟩

/-- Embedding of process_terms (src/escrow.py lines 139 to 187): strip the
text, reject when the stripped length is below 20 or above 1000 without
touching the session, otherwise store the terms and advance to the
confirmation stage. -/
def process_terms (st : Store) (s : Session) (text : String) : HandlerResult :=
  let trm := pyStrip text
  if pyLen trm < 20 then
    ⟨st, s, [msgTermsTooShort], []⟩
  else if pyLen trm > 1000 then
    ⟨st, s, [msgTermsTooLong], []⟩
  else
    ⟨st,
      { conv := some ConvState.waiting_for_confirmation,
        data := { s.data with terms := some trm } },
      [msgConfirmSummary], []⟩

/-- Embedding of confirm_deal_creation (src/escrow.py lines 189 to 220):
generate an 8-character deal id from the uuid, create the deal with the
collected description, amount and terms, and clear the session.  A missing
collected field is the KeyError path of the Python dictionary access: the
exception propagates and nothing is created. -/
def confirm_deal_creation (st : Store) (s : Session) (user_id : Nat) (uuid : String) :
    HandlerResult :=
  match s.data.description, s.data.amount, s.data.terms with
  | some d, some a, some t =>
      let deal_id := genDealId uuid
      ⟨create_deal st deal_id user_id d a t, clearedSession,
        [msgDealCreated], [StoreWrite.createDealW deal_id]⟩
  | _, _, _ => ⟨st, s, [msgMissingFields], []⟩

/-- Embedding of initiate_payment (src/payment.py lines 24 to 81): reject a
missing deal, reject a deal whose status is not created, otherwise anchor the
session to the deal and enter the payment-proof stage. -/
def initiate_payment (st : Store) (s : Session) (deal_id : String) : HandlerResult :=
  match get_deal st deal_id with
  | none => ⟨st, s, [msgDealNotFound], []⟩
  | some deal =>
      if deal.status != DealStatus.created then
        ⟨st, s, [msgNotAvailable], []⟩
      else
        ⟨st,
          { conv := some ConvState.waiting_for_payment_proof,
            data := { s.data with deal_id := some deal_id, pay_amount := some deal.amount } },
          [msgPaymentInitiated], []⟩

/-- Embedding of regenerate_qr (src/payment.py lines 83 to 134): reject only
a missing deal; for any existing deal, whatever its status, anchor the
session to the deal and enter the payment-proof stage. -/
def regenerate_qr (st : Store) (s : Session) (deal_id : String) : HandlerResult :=
  match get_deal st deal_id with
  | none => ⟨st, s, [msgDealNotFound], []⟩
  | some deal =>
      ⟨st,
        { conv := some ConvState.waiting_for_payment_proof,
          data := { s.data with deal_id := some deal_id, pay_amount := some deal.amount } },
        [msgQrRefreshed], []⟩

/-- An inbound message in the payment-proof stage: an optional photo and an
optional text, from a given user. -/
structure ProofMsg where
  has_photo : Bool
  text : Option String
  from_user : Nat
  deriving DecidableEq, Repr

/-- Embedding of process_payment_proof (src/payment.py lines 181 to 287):
with no deal context the session is cleared with a session-expired error; a
photo creates a screenshot payment record and writes status funded; a text
is stripped and must be at least 8 characters to create a reference payment
record and write status funded; with neither, the turn is rejected.  The
deal's stored status is never consulted. -/
def process_payment_proof (st : Store) (s : Session) (m : ProofMsg) (uuid : String) :
    HandlerResult :=
  match s.data.deal_id with
  | none => ⟨st, clearedSession, [msgSessionExpired], []⟩
  | some deal_id =>
      let amount := s.data.pay_amount
      if m.has_photo then
        let payment_id := genPaymentId uuid
        ⟨update_deal_status
            (create_payment_record st
              ⟨deal_id, m.from_user, amount, "UPI_SCREENSHOT", payment_id, "pending_verification"⟩)
            deal_id DealStatus.funded,
          clearedSession, [msgPaymentReceived],
          [StoreWrite.createPaymentW deal_id, StoreWrite.updateStatusW deal_id DealStatus.funded]⟩
      else
        match m.text with
        | some t =>
            let reference_id := pyStrip t
            if pyLen reference_id < 8 then
              ⟨st, s, [msgRefTooShort], []⟩
            else
              ⟨update_deal_status
                  (create_payment_record st
                    ⟨deal_id, m.from_user, amount, "UPI_REFERENCE", reference_id,
                      "pending_verification"⟩)
                  deal_id DealStatus.funded,
                clearedSession, [msgPaymentVerified],
                [StoreWrite.createPaymentW deal_id,
                  StoreWrite.updateStatusW deal_id DealStatus.funded]⟩
        | none => ⟨st, s, [msgSendProof], []⟩

/-- Embedding of release_payment (src/payment.py lines 289 to 327): reject a
missing deal, reject a deal whose status is not funded leaving the store
untouched, otherwise write status completed. -/
def release_payment (st : Store) (s : Session) (deal_id : String) : HandlerResult :=
  match get_deal st deal_id with
  | none => ⟨st, s, [msgDealNotFound], []⟩
  | some deal =>
      if deal.status != DealStatus.funded then
        ⟨st, s, [msgNotReadyForRelease], []⟩
      else
        ⟨update_deal_status st deal_id DealStatus.completed, s, [msgPaymentReleased],
          [StoreWrite.updateStatusW deal_id DealStatus.completed]⟩

/-- Embedding of create_dispute (src/payment.py lines 329 to 367): reject a
missing deal; for any existing deal, whatever its current status, write
status disputed. -/
def create_dispute (st : Store) (s : Session) (deal_id : String) : HandlerResult :=
  match get_deal st deal_id with
  | none => ⟨st, s, [msgDealNotFound], []⟩
  | some _ =>
      ⟨update_deal_status st deal_id DealStatus.disputed, s, [msgDisputeCreated],
        [StoreWrite.updateStatusW deal_id DealStatus.disputed]⟩

/-- The operator allow-list configuration. -/
structure AuthCfg where
  admin_ids : List Nat
  admin_names : List String
  deriving DecidableEq, Repr

/-- Modelled from the spec: is_admin of utils.security (not under src) — a
caller is an operator exactly when its numeric id or its handle is on the
fixed allow-list, evaluated fresh on every call. -/
def is_admin (cfg : AuthCfg) (uid : Nat) (uname : String) : Bool :=
  cfg.admin_ids.contains uid || cfg.admin_names.contains uname

/-- Embedding of admin_resolve_dispute (src/admin.py lines 192 to 221): a
non-operator is rejected with an access-denied reply and nothing changes;
an operator causes an unconditional write of status completed for the
given deal id, with no existence or status check. -/
def admin_resolve_dispute (cfg : AuthCfg) (st : Store) (s : Session) (uid : Nat)
    (uname : String) (deal_id : String) : HandlerResult :=
  if !(is_admin cfg uid uname) then
    ⟨st, s, [msgAccessDenied], []⟩
  else
    ⟨update_deal_status st deal_id DealStatus.completed, s, [msgDisputeResolved],
      [StoreWrite.updateStatusW deal_id DealStatus.completed]⟩

/-- Embedding of admin_cancel_deal (src/admin.py lines 223 to 252): a
non-operator is rejected with an access-denied reply and nothing changes;
an operator causes an unconditional write of status cancelled for the given
deal id, with no existence or status check. -/
def admin_cancel_deal (cfg : AuthCfg) (st : Store) (s : Session) (uid : Nat)
    (uname : String) (deal_id : String) : HandlerResult :=
  if !(is_admin cfg uid uname) then
    ⟨st, s, [msgAccessDenied], []⟩
  else
    ⟨update_deal_status st deal_id DealStatus.cancelled, s, [msgDealCancelled],
      [StoreWrite.updateStatusW deal_id DealStatus.cancelled]⟩

/-- The deal-authoring scenario: a description turn, an amount turn, a terms
turn, then the confirm signal, each consuming the previous turn's store and
session exactly as the aiogram dispatcher chains the handlers. -/
def dealCreationFlow (st : Store) (s : Session) (uid : Nat)
    (uuid desc amt trm : String) : HandlerResult :=
  let r1 := process_description st s desc
  let r2 := process_amount r1.store r1.session amt
  let r3 := process_terms r2.store r2.session trm
  confirm_deal_creation r3.store r3.session uid uuid

/-- A sample deal with a chosen status, for concrete instantiations. -/
def demoDeal (ds : DealStatus) : Deal :=
  ⟨"DEAL0001", 7, "Used mountain bike 21 speed",
    PyFloat.num 15000, "Payment upfront delivery in 3 days 7 day return window", ds⟩

/-- A store holding exactly the sample deal. -/
def demoStore (ds : DealStatus) : Store := ⟨[demoDeal ds], []⟩

/-- The empty store. -/
def emptyStore : Store := ⟨[], []⟩

/-- A session sitting in a given conversation stage with no collected data. -/
def sessIn (c : ConvState) : Session := ⟨some c, {}⟩

/-- A payment-proof session anchored to a deal, as initiate_payment and
regenerate_qr build it. -/
def proofSession (id : String) (amt : PyFloat) : Session :=
  ⟨some ConvState.waiting_for_payment_proof,
    { deal_id := some id, pay_amount := some amt }⟩

/-- A sample operator allow-list: user 99 and the handle admin. -/
def demoCfg : AuthCfg := ⟨[99], ["admin"]⟩

/-- Updating the status of the deal found under an id rewrites exactly that
deal's status in the underlying list. -/
theorem find?_status_update (l : List Deal) (id : String) (ns : DealStatus) (d : Deal)
    (h : l.find? (fun x => x.deal_id == id) = some d) :
    (l.map (fun x => if x.deal_id == id then { x with status := ns } else x)).find?
      (fun x => x.deal_id == id) = some { d with status := ns } := by
  induction l with
  | nil => simp at h
  | cons a t ih =>
      cases hb : (a.deal_id == id) with
      | true =>
          rw [List.find?_cons, hb] at h
          injection h with h
          subst h
          simp only [List.map_cons]
          rw [List.find?_cons]
          simp [hb]
      | false =>
          rw [List.find?_cons, hb] at h
          dsimp only at h
          simp only [List.map_cons]
          have hhead : (if (a.deal_id == id) = true then { a with status := ns } else a) = a := by
            rw [hb]
            simp
          rw [List.find?_cons, hhead, hb]
          dsimp only
          exact ih h

/-- get_deal after a status write of the found deal. -/
theorem get_deal_after_update (st : Store) (id : String) (ns : DealStatus) (d : Deal)
    (h : get_deal st id = some d) :
    get_deal (update_deal_status st id ns) id = some { d with status := ns } :=
  find?_status_update st.deals id ns d h

/-- Creating a payment record does not change which deal an id resolves to. -/
theorem get_deal_after_payment (st : Store) (r : PaymentRecord) (id : String) :
    get_deal (create_payment_record st r) id = get_deal st id := rfl

/-- process_amount on unparseable input: the ValueError branch. -/
theorem process_amount_none (st : Store) (s : Session) (text : String)
    (hp : parseFloat (removeCommas (pyStrip text)) = none) :
    process_amount st s text = ⟨st, s, [msgInvalidAmount], []⟩ := by
  unfold process_amount
  rw [hp]

/-- process_amount on a value comparing below the minimum. -/
theorem process_amount_low (st : Store) (s : Session) (text : String) (v : PyFloat)
    (hp : parseFloat (removeCommas (pyStrip text)) = some v)
    (h : pfLt v 100 = true) :
    process_amount st s text = ⟨st, s, [msgMinAmount], []⟩ := by
  unfold process_amount
  rw [hp]
  dsimp only
  rw [if_pos h]

/-- process_amount on a value comparing above the maximum. -/
theorem process_amount_high (st : Store) (s : Session) (text : String) (v : PyFloat)
    (hp : parseFloat (removeCommas (pyStrip text)) = some v)
    (h1 : pfLt v 100 = false) (h2 : pfGt v 500000 = true) :
    process_amount st s text = ⟨st, s, [msgMaxAmount], []⟩ := by
  unfold process_amount
  rw [hp]
  dsimp only
  rw [if_neg (by simp [h1]), if_pos h2]

/-- process_amount on a value both comparisons pass over (an in-range finite
value or NaN): the amount is stored as parsed and the session advances to
the terms stage. -/
theorem process_amount_accept (st : Store) (s : Session) (text : String) (v : PyFloat)
    (hp : parseFloat (removeCommas (pyStrip text)) = some v)
    (h1 : pfLt v 100 = false) (h2 : pfGt v 500000 = false) :
    process_amount st s text =
      ⟨st,
        { conv := some ConvState.waiting_for_terms,
          data := { s.data with amount := some v } },
        [msgStepTerms], []⟩ := by
  unfold process_amount
  rw [hp]
  dsimp only
  rw [if_neg (by simp [h1]), if_neg (by simp [h2])]

/-- process_description on a too-short stripped input. -/
theorem process_description_short (st : Store) (s : Session) (text : String)
    (h : pyLen (pyStrip text) < 10) :
    process_description st s text = ⟨st, s, [msgDescTooShort], []⟩ := by
  unfold process_description
  exact if_pos h

/-- process_description on a too-long stripped input. -/
theorem process_description_long (st : Store) (s : Session) (text : String)
    (h1 : ¬ pyLen (pyStrip text) < 10) (h2 : pyLen (pyStrip text) > 500) :
    process_description st s text = ⟨st, s, [msgDescTooLong], []⟩ := by
  unfold process_description
  rw [if_neg h1]
  exact if_pos h2

/-- process_description on an in-bounds stripped input. -/
theorem process_description_accept (st : Store) (s : Session) (text : String)
    (h1 : ¬ pyLen (pyStrip text) < 10) (h2 : ¬ pyLen (pyStrip text) > 500) :
    process_description st s text =
      ⟨st,
        { conv := some ConvState.waiting_for_amount,
          data := { s.data with description := some (pyStrip text) } },
        [msgStepAmount], []⟩ := by
  unfold process_description
  rw [if_neg h1]
  exact if_neg h2

/-- process_terms on a too-short stripped input. -/
theorem process_terms_short (st : Store) (s : Session) (text : String)
    (h : pyLen (pyStrip text) < 20) :
    process_terms st s text = ⟨st, s, [msgTermsTooShort], []⟩ := by
  unfold process_terms
  exact if_pos h

/-- process_terms on a too-long stripped input. -/
theorem process_terms_long (st : Store) (s : Session) (text : String)
    (h1 : ¬ pyLen (pyStrip text) < 20) (h2 : pyLen (pyStrip text) > 1000) :
    process_terms st s text = ⟨st, s, [msgTermsTooLong], []⟩ := by
  unfold process_terms
  rw [if_neg h1]
  exact if_pos h2

/-- process_terms on an in-bounds stripped input. -/
theorem process_terms_accept (st : Store) (s : Session) (text : String)
    (h1 : ¬ pyLen (pyStrip text) < 20) (h2 : ¬ pyLen (pyStrip text) > 1000) :
    process_terms st s text =
      ⟨st,
        { conv := some ConvState.waiting_for_confirmation,
          data := { s.data with terms := some (pyStrip text) } },
        [msgConfirmSummary], []⟩ := by
  unfold process_terms
  rw [if_neg h1]
  exact if_neg h2

/-- C4: for every deal whose status is not funded, invoking release-payment
is rejected as an illegal transition with a user-visible signal and the
stored status is unchanged (the whole store, session and write log are
untouched); for every deal in status funded, release-payment sets the status
to completed. -/
theorem C4_release_guard (st : Store) (s : Session) (id : String) (d : Deal)
    (hd : get_deal st id = some d) :
    (d.status ≠ DealStatus.funded →
      release_payment st s id = ⟨st, s, [msgNotReadyForRelease], []⟩) ∧
    (d.status = DealStatus.funded →
      get_deal (release_payment st s id).store id =
        some { d with status := DealStatus.completed } ∧
      (release_payment st s id).writes =
        [StoreWrite.updateStatusW id DealStatus.completed]) := by
  constructor
  · intro hne
    unfold release_payment
    rw [hd]
    dsimp only
    have hb : (d.status != DealStatus.funded) = true := by simp [hne]
    rw [if_pos hb]
  · intro hf
    unfold release_payment
    rw [hd]
    dsimp only
    have hb : ¬ (d.status != DealStatus.funded) = true := by simp [hf]
    rw [if_neg hb]
    exact ⟨get_deal_after_update st id DealStatus.completed d hd, rfl⟩

/-- Witness for C4 at a concrete store: a created deal is rejected for
release and a funded deal is released to completed. -/
theorem C4_witness :
    get_deal (demoStore DealStatus.created) "DEAL0001" = some (demoDeal DealStatus.created) ∧
    (demoDeal DealStatus.created).status ≠ DealStatus.funded ∧
    release_payment (demoStore DealStatus.created) clearedSession "DEAL0001" =
      ⟨demoStore DealStatus.created, clearedSession, [msgNotReadyForRelease], []⟩ ∧
    get_deal (demoStore DealStatus.funded) "DEAL0001" = some (demoDeal DealStatus.funded) ∧
    get_deal (release_payment (demoStore DealStatus.funded) clearedSession "DEAL0001").store
        "DEAL0001" =
      some { demoDeal DealStatus.funded with status := DealStatus.completed } :=
  ⟨by decide, by decide,
    (C4_release_guard (demoStore DealStatus.created) clearedSession "DEAL0001"
      (demoDeal DealStatus.created) (by decide)).1 (by decide),
    by decide,
    ((C4_release_guard (demoStore DealStatus.funded) clearedSession "DEAL0001"
      (demoDeal DealStatus.funded) (by decide)).2 (by decide)).1⟩

/-- C5: on a disputed deal, an operator invoking resolve sets the status to
completed; a non-operator is rejected with a reported access-denied reply
and neither the store nor the session is mutated. -/
theorem C5_operator_resolve_guard (cfg : AuthCfg) (st : Store) (s : Session)
    (uid : Nat) (uname : String) (id : String) (d : Deal)
    (hd : get_deal st id = some d) (hds : d.status = DealStatus.disputed) :
    (is_admin cfg uid uname = true →
      get_deal (admin_resolve_dispute cfg st s uid uname id).store id =
        some { d with status := DealStatus.completed }) ∧
    (is_admin cfg uid uname = false →
      admin_resolve_dispute cfg st s uid uname id = ⟨st, s, [msgAccessDenied], []⟩) := by
  constructor
  · intro ha
    unfold admin_resolve_dispute
    have hb : ¬ (!(is_admin cfg uid uname)) = true := by simp [ha]
    rw [if_neg hb]
    exact get_deal_after_update st id DealStatus.completed d hd
  · intro ha
    unfold admin_resolve_dispute
    have hb : (!(is_admin cfg uid uname)) = true := by simp [ha]
    rw [if_pos hb]

/-- Witness for C5 at a concrete store: the allow-listed caller 99 resolves
the disputed deal to completed, the non-listed caller 5 is rejected and the
state is untouched. -/
theorem C5_witness :
    get_deal (demoStore DealStatus.disputed) "DEAL0001" = some (demoDeal DealStatus.disputed) ∧
    (demoDeal DealStatus.disputed).status = DealStatus.disputed ∧
    is_admin demoCfg 99 "ops" = true ∧
    get_deal (admin_resolve_dispute demoCfg (demoStore DealStatus.disputed) clearedSession
        99 "ops" "DEAL0001").store "DEAL0001" =
      some { demoDeal DealStatus.disputed with status := DealStatus.completed } ∧
    is_admin demoCfg 5 "bob" = false ∧
    admin_resolve_dispute demoCfg (demoStore DealStatus.disputed) clearedSession
        5 "bob" "DEAL0001" =
      ⟨demoStore DealStatus.disputed, clearedSession, [msgAccessDenied], []⟩ :=
  ⟨by decide, by decide, by decide,
    (C5_operator_resolve_guard demoCfg (demoStore DealStatus.disputed) clearedSession
      99 "ops" "DEAL0001" (demoDeal DealStatus.disputed) (by decide) (by decide)).1 (by decide),
    by decide,
    (C5_operator_resolve_guard demoCfg (demoStore DealStatus.disputed) clearedSession
      5 "bob" "DEAL0001" (demoDeal DealStatus.disputed) (by decide) (by decide)).2 (by decide)⟩

/-- C2 counterexample: the input nan parses under float, both range
comparisons are false on NaN, and the amount stage accepts it, storing NaN
and advancing to the terms stage, although nan does not parse as a number
lying in the range 100 to 500000; so acceptance is not equivalent to
parsing as an in-range number. -/
theorem C2_counterexample :
    parseFloat (removeCommas (pyStrip "nan")) = some PyFloat.nan ∧
    (process_amount emptyStore (sessIn ConvState.waiting_for_amount) "nan").session.conv =
      some ConvState.waiting_for_terms ∧
    (process_amount emptyStore (sessIn ConvState.waiting_for_amount)
        "nan").session.data.amount = some PyFloat.nan ∧
    ¬ ∃ a : Rat, parseFloat (removeCommas (pyStrip "nan")) = some (PyFloat.num a) ∧
        100 ≤ a ∧ a ≤ 500000 := by
  refine ⟨by decide, by decide, by decide, ?_⟩
  rintro ⟨a, ha, -, -⟩
  have h : parseFloat (removeCommas (pyStrip "nan")) = some PyFloat.nan := by decide
  rw [h] at ha
  injection ha with ha
  exact PyFloat.noConfusion ha

/-- C2 amended: in the awaiting-amount stage an input is accepted, storing
the parsed float and advancing the session to the terms stage, exactly when
float parses it (thousands separators removed) to either a finite value in
the closed range 100 to 500000 or to NaN, which both range comparisons pass
over; infinities are rejected as out of range; 99.99 and 500000.01 are
rejected, 100, 500000, 1e2 and 1_000 are accepted, abc is rejected with an
error distinct from the out-of-range errors, and every rejection leaves the
session unchanged. -/
theorem C2_amount_stage_validation (st : Store) (s : Session) (text : String)
    (hconv : s.conv = some ConvState.waiting_for_amount) :
    (((process_amount st s text).session.conv = some ConvState.waiting_for_terms) ↔
      ((∃ a : Rat, parseFloat (removeCommas (pyStrip text)) = some (PyFloat.num a) ∧
          100 ≤ a ∧ a ≤ 500000) ∨
        parseFloat (removeCommas (pyStrip text)) = some PyFloat.nan)) ∧
    ((process_amount st s text).session = s ∨
      (process_amount st s text).session.conv = some ConvState.waiting_for_terms) ∧
    (process_amount st s "100").session.conv = some ConvState.waiting_for_terms ∧
    (process_amount st s "500000").session.conv = some ConvState.waiting_for_terms ∧
    (process_amount st s "1e2").session.data.amount =
      some (PyFloat.num (Rat.divInt 100 1)) ∧
    (process_amount st s "1_000").session.data.amount =
      some (PyFloat.num (Rat.divInt 1000 1)) ∧
    (process_amount st s "nan").session.conv = some ConvState.waiting_for_terms ∧
    process_amount st s "99.99" = ⟨st, s, [msgMinAmount], []⟩ ∧
    process_amount st s "500000.01" = ⟨st, s, [msgMaxAmount], []⟩ ∧
    process_amount st s "inf" = ⟨st, s, [msgMaxAmount], []⟩ ∧
    process_amount st s "-inf" = ⟨st, s, [msgMinAmount], []⟩ ∧
    process_amount st s "abc" = ⟨st, s, [msgInvalidAmount], []⟩ ∧
    msgInvalidAmount ≠ msgMinAmount ∧ msgInvalidAmount ≠ msgMaxAmount := by
  refine ⟨?_, ?_, ?_, ?_, ?_, ?_, ?_, ?_, ?_, ?_, ?_, ?_, by decide, by decide⟩
  · cases hp : parseFloat (removeCommas (pyStrip text)) with
    | none =>
        rw [process_amount_none st s text hp]
        dsimp only
        constructor
        · intro h
          rw [hconv] at h
          simp at h
        · rintro (⟨a, ha, -, -⟩ | ha) <;> cases ha
    | some v =>
        cases v with
        | num q =>
            by_cases h1 : q < 100
            · rw [process_amount_low st s text (PyFloat.num q) hp
                (by simp only [pfLt]; exact decide_eq_true h1)]
              dsimp only
              constructor
              · intro h
                rw [hconv] at h
                simp at h
              · rintro (⟨b, hb, hb1, -⟩ | hb)
                · injection hb with hb
                  injection hb with hb
                  subst hb
                  exact absurd hb1 (not_le.mpr h1)
                · injection hb with hb
                  exact PyFloat.noConfusion hb
            · by_cases h2 : (500000 : Rat) < q
              · rw [process_amount_high st s text (PyFloat.num q) hp
                  (by simp only [pfLt]; exact decide_eq_false h1)
                  (by simp only [pfGt]; exact decide_eq_true h2)]
                dsimp only
                constructor
                · intro h
                  rw [hconv] at h
                  simp at h
                · rintro (⟨b, hb, -, hb2⟩ | hb)
                  · injection hb with hb
                    injection hb with hb
                    subst hb
                    exact absurd hb2 (not_le.mpr h2)
                  · injection hb with hb
                    exact PyFloat.noConfusion hb
              · rw [process_amount_accept st s text (PyFloat.num q) hp
                  (by simp only [pfLt]; exact decide_eq_false h1)
                  (by simp only [pfGt]; exact decide_eq_false h2)]
                dsimp only
                exact ⟨fun _ => Or.inl ⟨q, rfl, not_lt.mp h1, not_lt.mp h2⟩, fun _ => rfl⟩
        | nan =>
            rw [process_amount_accept st s text PyFloat.nan hp rfl rfl]
            dsimp only
            exact ⟨fun _ => Or.inr rfl, fun _ => rfl⟩
        | inf =>
            rw [process_amount_high st s text PyFloat.inf hp rfl rfl]
            dsimp only
            constructor
            · intro h
              rw [hconv] at h
              simp at h
            · rintro (⟨b, hb, -, -⟩ | hb)
              · injection hb with hb
                exact PyFloat.noConfusion hb
              · injection hb with hb
                exact PyFloat.noConfusion hb
        | ninf =>
            rw [process_amount_low st s text PyFloat.ninf hp rfl]
            dsimp only
            constructor
            · intro h
              rw [hconv] at h
              simp at h
            · rintro (⟨b, hb, -, -⟩ | hb)
              · injection hb with hb
                exact PyFloat.noConfusion hb
              · injection hb with hb
                exact PyFloat.noConfusion hb
  · cases hp : parseFloat (removeCommas (pyStrip text)) with
    | none =>
        rw [process_amount_none st s text hp]
        exact Or.inl rfl
    | some v =>
        cases hlt : pfLt v 100 with
        | true =>
            rw [process_amount_low st s text v hp hlt]
            exact Or.inl rfl
        | false =>
            cases hgt : pfGt v 500000 with
            | true =>
                rw [process_amount_high st s text v hp hlt hgt]
                exact Or.inl rfl
            | false =>
                rw [process_amount_accept st s text v hp hlt hgt]
                exact Or.inr rfl
  · rw [process_amount_accept st s "100" (PyFloat.num (Rat.divInt 100 1)) (by decide)
      (by decide) (by decide)]
  · rw [process_amount_accept st s "500000" (PyFloat.num (Rat.divInt 500000 1)) (by decide)
      (by decide) (by decide)]
  · rw [process_amount_accept st s "1e2" (PyFloat.num (Rat.divInt 100 1)) (by decide)
      (by decide) (by decide)]
  · rw [process_amount_accept st s "1_000" (PyFloat.num (Rat.divInt 1000 1)) (by decide)
      (by decide) (by decide)]
  · rw [process_amount_accept st s "nan" PyFloat.nan (by decide) (by decide) (by decide)]
  · exact process_amount_low st s "99.99" (PyFloat.num (Rat.divInt 9999 100)) (by decide)
      (by decide)
  · exact process_amount_high st s "500000.01" (PyFloat.num (Rat.divInt 50000001 100))
      (by decide) (by decide) (by decide)
  · exact process_amount_high st s "inf" PyFloat.inf (by decide) (by decide) (by decide)
  · exact process_amount_low st s "-inf" PyFloat.ninf (by decide) (by decide)
  · exact process_amount_none st s "abc" (by decide)

/-- Witness for C2: in a concrete awaiting-amount session the input 100 is
accepted and the session advances to the terms stage. -/
theorem C2_witness :
    (sessIn ConvState.waiting_for_amount).conv = some ConvState.waiting_for_amount ∧
    (process_amount emptyStore (sessIn ConvState.waiting_for_amount) "100").session.conv =
      some ConvState.waiting_for_terms :=
  ⟨by decide,
    (C2_amount_stage_validation emptyStore (sessIn ConvState.waiting_for_amount) "100"
      (by decide)).2.2.1⟩

/-- C6 counterexample: the input of nine letters followed by a space has
length 10, inside the documented bounds, yet the description stage rejects
it with the too-short error and does not advance, because the code measures
the stripped text; so acceptance is not equivalent to the raw input length
being in bounds. -/
theorem C6_counterexample :
    pyLen "aaaaaaaaa " = 10 ∧
    10 ≤ pyLen "aaaaaaaaa " ∧ pyLen "aaaaaaaaa " ≤ 500 ∧
    process_description emptyStore (sessIn ConvState.waiting_for_description) "aaaaaaaaa " =
      ⟨emptyStore, sessIn ConvState.waiting_for_description, [msgDescTooShort], []⟩ := by
  decide

/-- C6 amended: acceptance is equivalent to the length of the
whitespace-stripped input lying within the bounds, 10 to 500 for the
description and 20 to 1000 for the terms; stripped boundary lengths 10,
500, 20 and 1000 are accepted, one below or above is rejected, and every
rejection leaves the session unchanged. -/
theorem C6_text_bounds (st : Store) (s1 s2 : Session) (text : String)
    (hc1 : s1.conv = some ConvState.waiting_for_description)
    (hc2 : s2.conv = some ConvState.waiting_for_terms) :
    (((process_description st s1 text).session.conv = some ConvState.waiting_for_amount) ↔
      (10 ≤ pyLen (pyStrip text) ∧ pyLen (pyStrip text) ≤ 500)) ∧
    ((process_description st s1 text).session = s1 ∨
      (process_description st s1 text).session.conv = some ConvState.waiting_for_amount) ∧
    (((process_terms st s2 text).session.conv = some ConvState.waiting_for_confirmation) ↔
      (20 ≤ pyLen (pyStrip text) ∧ pyLen (pyStrip text) ≤ 1000)) ∧
    ((process_terms st s2 text).session = s2 ∨
      (process_terms st s2 text).session.conv = some ConvState.waiting_for_confirmation) ∧
    (process_description st s1 (String.mk (List.replicate 10 'a'))).session.conv =
      some ConvState.waiting_for_amount ∧
    (process_description st s1 (String.mk (List.replicate 500 'a'))).session.conv =
      some ConvState.waiting_for_amount ∧
    process_description st s1 (String.mk (List.replicate 9 'a')) =
      ⟨st, s1, [msgDescTooShort], []⟩ ∧
    process_description st s1 (String.mk (List.replicate 501 'a')) =
      ⟨st, s1, [msgDescTooLong], []⟩ ∧
    (process_terms st s2 (String.mk (List.replicate 20 'a'))).session.conv =
      some ConvState.waiting_for_confirmation ∧
    (process_terms st s2 (String.mk (List.replicate 1000 'a'))).session.conv =
      some ConvState.waiting_for_confirmation ∧
    process_terms st s2 (String.mk (List.replicate 19 'a')) =
      ⟨st, s2, [msgTermsTooShort], []⟩ ∧
    process_terms st s2 (String.mk (List.replicate 1001 'a')) =
      ⟨st, s2, [msgTermsTooLong], []⟩ := by
  refine ⟨?_, ?_, ?_, ?_, ?_, ?_, ?_, ?_, ?_, ?_, ?_, ?_⟩
  · by_cases h1 : pyLen (pyStrip text) < 10
    · rw [process_description_short st s1 text h1]
      dsimp only
      constructor
      · intro h
        rw [hc1] at h
        simp at h
      · intro h
        omega
    · by_cases h2 : pyLen (pyStrip text) > 500
      · rw [process_description_long st s1 text h1 h2]
        dsimp only
        constructor
        · intro h
          rw [hc1] at h
          simp at h
        · intro h
          omega
      · rw [process_description_accept st s1 text h1 h2]
        dsimp only
        exact ⟨fun _ => ⟨by omega, by omega⟩, fun _ => rfl⟩
  · by_cases h1 : pyLen (pyStrip text) < 10
    · rw [process_description_short st s1 text h1]
      exact Or.inl rfl
    · by_cases h2 : pyLen (pyStrip text) > 500
      · rw [process_description_long st s1 text h1 h2]
        exact Or.inl rfl
      · rw [process_description_accept st s1 text h1 h2]
        exact Or.inr rfl
  · by_cases h1 : pyLen (pyStrip text) < 20
    · rw [process_terms_short st s2 text h1]
      dsimp only
      constructor
      · intro h
        rw [hc2] at h
        simp at h
      · intro h
        omega
    · by_cases h2 : pyLen (pyStrip text) > 1000
      · rw [process_terms_long st s2 text h1 h2]
        dsimp only
        constructor
        · intro h
          rw [hc2] at h
          simp at h
        · intro h
          omega
      · rw [process_terms_accept st s2 text h1 h2]
        dsimp only
        exact ⟨fun _ => ⟨by omega, by omega⟩, fun _ => rfl⟩
  · by_cases h1 : pyLen (pyStrip text) < 20
    · rw [process_terms_short st s2 text h1]
      exact Or.inl rfl
    · by_cases h2 : pyLen (pyStrip text) > 1000
      · rw [process_terms_long st s2 text h1 h2]
        exact Or.inl rfl
      · rw [process_terms_accept st s2 text h1 h2]
        exact Or.inr rfl
  · rw [process_description_accept st s1 (String.mk (List.replicate 10 'a')) (by decide)
      (by decide)]
  · rw [process_description_accept st s1 (String.mk (List.replicate 500 'a')) (by decide)
      (by decide)]
  · exact process_description_short st s1 (String.mk (List.replicate 9 'a')) (by decide)
  · exact process_description_long st s1 (String.mk (List.replicate 501 'a')) (by decide)
      (by decide)
  · rw [process_terms_accept st s2 (String.mk (List.replicate 20 'a')) (by decide) (by decide)]
  · rw [process_terms_accept st s2 (String.mk (List.replicate 1000 'a')) (by decide)
      (by decide)]
  · exact process_terms_short st s2 (String.mk (List.replicate 19 'a')) (by decide)
  · exact process_terms_long st s2 (String.mk (List.replicate 1001 'a')) (by decide)
      (by decide)

/-- Witness for C6: in concrete sessions the exactly-10-letter description is
accepted into the amount stage. -/
theorem C6_witness :
    (sessIn ConvState.waiting_for_description).conv = some ConvState.waiting_for_description ∧
    (sessIn ConvState.waiting_for_terms).conv = some ConvState.waiting_for_terms ∧
    (process_description emptyStore (sessIn ConvState.waiting_for_description)
        (String.mk (List.replicate 10 'a'))).session.conv =
      some ConvState.waiting_for_amount :=
  ⟨by decide, by decide,
    (C6_text_bounds emptyStore (sessIn ConvState.waiting_for_description)
      (sessIn ConvState.waiting_for_terms) "x" (by decide) (by decide)).2.2.2.2.1⟩

/-- C9 counterexample: the input 100.125 carries three decimal places, is
accepted as-is, and the stored amount 100.125 is not an integer multiple of
one hundredth. -/
theorem C9_counterexample :
    (process_amount emptyStore (sessIn ConvState.waiting_for_amount) "100.125").session.conv =
      some ConvState.waiting_for_terms ∧
    (process_amount emptyStore (sessIn ConvState.waiting_for_amount)
        "100.125").session.data.amount = some (PyFloat.num (Rat.divInt 100125 1000)) ∧
    ¬ ∃ k : Int, (Rat.divInt 100125 1000) = (k : Rat) / 100 := by
  refine ⟨by decide, by decide, ?_⟩
  rintro ⟨k, hk⟩
  have h2 : Rat.divInt 100125 1000 = Rat.divInt k 100 := by
    rw [hk, Rat.divInt_eq_div]
    norm_num
  have hdvd : ((Rat.divInt k 100).den : Int) ∣ 100 := Rat.den_dvd k 100
  rw [← h2] at hdvd
  have hden : (Rat.divInt 100125 1000).den = 8 := by decide
  rw [hden] at hdvd
  norm_num at hdvd

/-- C9 amended: every accepted amount is stored exactly as parsed, with no
rounding to two decimal places; in particular inputs with more than two
decimal places are accepted as-is when in range. -/
theorem C9_amount_full_precision (st : Store) (s : Session) (text : String) (a : Rat)
    (hconv : s.conv = some ConvState.waiting_for_amount)
    (hp : parseFloat (removeCommas (pyStrip text)) = some (PyFloat.num a))
    (h1 : 100 ≤ a) (h2 : a ≤ 500000) :
    (process_amount st s text).session.data.amount = some (PyFloat.num a) := by
  rw [process_amount_accept st s text (PyFloat.num a) hp
    (by simp only [pfLt]; exact decide_eq_false (not_lt.mpr h1))
    (by simp only [pfGt]; exact decide_eq_false (not_lt.mpr h2))]

/-- Witness for C9: the concrete input 100.125 is stored with its full
parsed value. -/
theorem C9_witness :
    (sessIn ConvState.waiting_for_amount).conv = some ConvState.waiting_for_amount ∧
    parseFloat (removeCommas (pyStrip "100.125")) =
      some (PyFloat.num (Rat.divInt 100125 1000)) ∧
    (100 : Rat) ≤ Rat.divInt 100125 1000 ∧ Rat.divInt 100125 1000 ≤ 500000 ∧
    (process_amount emptyStore (sessIn ConvState.waiting_for_amount)
        "100.125").session.data.amount = some (PyFloat.num (Rat.divInt 100125 1000)) :=
  ⟨by decide, by decide, by decide, by decide,
    C9_amount_full_precision emptyStore (sessIn ConvState.waiting_for_amount) "100.125"
      (Rat.divInt 100125 1000) (by decide) (by decide) (by decide) (by decide)⟩

/-- process_payment_proof on a photo turn with a deal context: one payment
record and one funded-status write, session cleared. -/
theorem process_payment_proof_photo (st : Store) (s : Session) (id : String)
    (uid : Nat) (uuid : String) (hid : s.data.deal_id = some id) :
    process_payment_proof st s ⟨true, none, uid⟩ uuid =
      ⟨update_deal_status
          (create_payment_record st
            ⟨id, uid, s.data.pay_amount, "UPI_SCREENSHOT", genPaymentId uuid,
              "pending_verification"⟩)
          id DealStatus.funded,
        clearedSession, [msgPaymentReceived],
        [StoreWrite.createPaymentW id, StoreWrite.updateStatusW id DealStatus.funded]⟩ := by
  unfold process_payment_proof
  rw [hid]
  rfl

/-- process_payment_proof on a long-enough text turn with a deal context. -/
theorem process_payment_proof_text (st : Store) (s : Session) (id : String)
    (uid : Nat) (uuid : String) (t : String) (hid : s.data.deal_id = some id)
    (hlen : ¬ pyLen (pyStrip t) < 8) :
    process_payment_proof st s ⟨false, some t, uid⟩ uuid =
      ⟨update_deal_status
          (create_payment_record st
            ⟨id, uid, s.data.pay_amount, "UPI_REFERENCE", pyStrip t, "pending_verification"⟩)
          id DealStatus.funded,
        clearedSession, [msgPaymentVerified],
        [StoreWrite.createPaymentW id, StoreWrite.updateStatusW id DealStatus.funded]⟩ := by
  unfold process_payment_proof
  rw [hid]
  dsimp only
  rw [if_neg hlen]
  rfl

/-- process_payment_proof on a too-short text turn: rejected, nothing
changes. -/
theorem process_payment_proof_short (st : Store) (s : Session) (id : String)
    (uid : Nat) (uuid : String) (t : String) (hid : s.data.deal_id = some id)
    (hlen : pyLen (pyStrip t) < 8) :
    process_payment_proof st s ⟨false, some t, uid⟩ uuid = ⟨st, s, [msgRefTooShort], []⟩ := by
  unfold process_payment_proof
  rw [hid]
  dsimp only
  rw [if_pos hlen]
  rfl

/-- process_payment_proof on a turn with neither photo nor text: rejected,
nothing changes. -/
theorem process_payment_proof_nothing (st : Store) (s : Session) (id : String)
    (uid : Nat) (uuid : String) (hid : s.data.deal_id = some id) :
    process_payment_proof st s ⟨false, none, uid⟩ uuid = ⟨st, s, [msgSendProof], []⟩ := by
  unfold process_payment_proof
  rw [hid]
  rfl

/-- process_payment_proof with no deal context: session-expired error and the
session is cleared with no store change. -/
theorem process_payment_proof_expired (st : Store) (s : Session) (m : ProofMsg)
    (uuid : String) (hid : s.data.deal_id = none) :
    process_payment_proof st s m uuid = ⟨st, clearedSession, [msgSessionExpired], []⟩ := by
  unfold process_payment_proof
  rw [hid]

/-- C3: a photo turn in the awaiting-proof stage with a deal context for a
deal in status created appends exactly one PaymentRecord with method
UPI_SCREENSHOT, the deal's amount and status pending_verification, writes
status funded on the deal, and clears the session. -/
theorem C3_screenshot_proof (st : Store) (s : Session) (id : String) (d : Deal)
    (uid : Nat) (uuid : String)
    (hconv : s.conv = some ConvState.waiting_for_payment_proof)
    (hid : s.data.deal_id = some id)
    (hamt : s.data.pay_amount = some d.amount)
    (hd : get_deal st id = some d)
    (hcreated : d.status = DealStatus.created) :
    (process_payment_proof st s ⟨true, none, uid⟩ uuid).store.payments =
      st.payments ++
        [⟨id, uid, some d.amount, "UPI_SCREENSHOT", genPaymentId uuid,
          "pending_verification"⟩] ∧
    get_deal (process_payment_proof st s ⟨true, none, uid⟩ uuid).store id =
      some { d with status := DealStatus.funded } ∧
    (process_payment_proof st s ⟨true, none, uid⟩ uuid).session = clearedSession := by
  rw [process_payment_proof_photo st s id uid uuid hid]
  refine ⟨?_, ?_, rfl⟩
  · simp only [update_deal_status, create_payment_record]
    rw [hamt]
  · exact get_deal_after_update _ id DealStatus.funded d
      (by rw [get_deal_after_payment]; exact hd)

/-- Witness for C3 on a concrete created deal: the screenshot proof funds the
deal and records the payment. -/
theorem C3_witness :
    (proofSession "DEAL0001" (PyFloat.num 15000)).conv = some ConvState.waiting_for_payment_proof ∧
    (proofSession "DEAL0001" (PyFloat.num 15000)).data.deal_id = some "DEAL0001" ∧
    (proofSession "DEAL0001" (PyFloat.num 15000)).data.pay_amount =
      some (demoDeal DealStatus.created).amount ∧
    get_deal (demoStore DealStatus.created) "DEAL0001" = some (demoDeal DealStatus.created) ∧
    (demoDeal DealStatus.created).status = DealStatus.created ∧
    get_deal (process_payment_proof (demoStore DealStatus.created)
        (proofSession "DEAL0001" (PyFloat.num 15000)) ⟨true, none, 42⟩ "f00d2c3d4e5f").store
        "DEAL0001" =
      some { demoDeal DealStatus.created with status := DealStatus.funded } :=
  ⟨by decide, by decide, by decide, by decide, by decide,
    (C3_screenshot_proof (demoStore DealStatus.created)
      (proofSession "DEAL0001" (PyFloat.num 15000)) "DEAL0001" (demoDeal DealStatus.created)
      42 "f00d2c3d4e5f" (by decide) (by decide) (by decide) (by decide) (by decide)).2.1⟩

/-- C8: in the awaiting-proof stage, a text shorter than 8 characters is
rejected with a re-prompt and no record, write or session change; a turn
with neither photo nor text is rejected the same way; a turn with no deal
context is answered with the session-expired error and the session is
cleared with no record and no write. -/
theorem C8_proof_stage_rejections (st : Store) (s : Session) (id : String)
    (t : String) (uid : Nat) (uuid : String) (m : ProofMsg) :
    (s.data.deal_id = some id → pyLen (pyStrip t) < 8 →
      process_payment_proof st s ⟨false, some t, uid⟩ uuid =
        ⟨st, s, [msgRefTooShort], []⟩) ∧
    (s.data.deal_id = some id →
      process_payment_proof st s ⟨false, none, uid⟩ uuid = ⟨st, s, [msgSendProof], []⟩) ∧
    (s.data.deal_id = none →
      process_payment_proof st s m uuid = ⟨st, clearedSession, [msgSessionExpired], []⟩) :=
  ⟨fun hid hlen => process_payment_proof_short st s id uid uuid t hid hlen,
    fun hid => process_payment_proof_nothing st s id uid uuid hid,
    fun hid => process_payment_proof_expired st s m uuid hid⟩

/-- Witness for C8 at concrete sessions: a 7-character reference is
re-prompted, an empty turn is rejected, and a context-free session is
expired and cleared. -/
theorem C8_witness :
    (proofSession "DEAL0001" (PyFloat.num 15000)).data.deal_id = some "DEAL0001" ∧
    pyLen (pyStrip "abc1234") < 8 ∧
    process_payment_proof (demoStore DealStatus.created)
        (proofSession "DEAL0001" (PyFloat.num 15000)) ⟨false, some "abc1234", 42⟩ "u" =
      ⟨demoStore DealStatus.created, proofSession "DEAL0001" (PyFloat.num 15000),
        [msgRefTooShort], []⟩ ∧
    process_payment_proof (demoStore DealStatus.created)
        (proofSession "DEAL0001" (PyFloat.num 15000)) ⟨false, none, 42⟩ "u" =
      ⟨demoStore DealStatus.created, proofSession "DEAL0001" (PyFloat.num 15000),
        [msgSendProof], []⟩ ∧
    clearedSession.data.deal_id = none ∧
    process_payment_proof (demoStore DealStatus.created) clearedSession
        ⟨false, some "abcdefgh", 42⟩ "u" =
      ⟨demoStore DealStatus.created, clearedSession, [msgSessionExpired], []⟩ :=
  ⟨by decide, by decide,
    (C8_proof_stage_rejections (demoStore DealStatus.created)
      (proofSession "DEAL0001" (PyFloat.num 15000)) "DEAL0001" "abc1234" 42 "u"
      ⟨false, some "abcdefgh", 42⟩).1 (by decide) (by decide),
    (C8_proof_stage_rejections (demoStore DealStatus.created)
      (proofSession "DEAL0001" (PyFloat.num 15000)) "DEAL0001" "abc1234" 42 "u"
      ⟨false, some "abcdefgh", 42⟩).2.1 (by decide),
    by decide,
    (C8_proof_stage_rejections (demoStore DealStatus.created) clearedSession
      "DEAL0001" "abc1234" 42 "u" ⟨false, some "abcdefgh", 42⟩).2.2 (by decide)⟩

/-- C10: regenerate-QR checks only that the deal exists and opens a proof
session anchored to it, whatever the current status, while payment
initiation rejects any status other than created; a subsequent photo proof
then records a payment and writes status funded on that deal. -/
theorem C10_regenerate_ignores_status (st : Store) (s : Session) (id : String)
    (d : Deal) (uid : Nat) (uuid : String)
    (hd : get_deal st id = some d) :
    regenerate_qr st s id =
      ⟨st,
        ⟨some ConvState.waiting_for_payment_proof,
          { s.data with deal_id := some id, pay_amount := some d.amount }⟩,
        [msgQrRefreshed], []⟩ ∧
    (d.status ≠ DealStatus.created →
      initiate_payment st s id = ⟨st, s, [msgNotAvailable], []⟩) ∧
    (process_payment_proof (regenerate_qr st s id).store (regenerate_qr st s id).session
        ⟨true, none, uid⟩ uuid).store.payments.length = st.payments.length + 1 ∧
    get_deal (process_payment_proof (regenerate_qr st s id).store
        (regenerate_qr st s id).session ⟨true, none, uid⟩ uuid).store id =
      some { d with status := DealStatus.funded } := by
  have hreg : regenerate_qr st s id =
      ⟨st,
        ⟨some ConvState.waiting_for_payment_proof,
          { s.data with deal_id := some id, pay_amount := some d.amount }⟩,
        [msgQrRefreshed], []⟩ := by
    unfold regenerate_qr
    rw [hd]
  refine ⟨hreg, ?_, ?_, ?_⟩
  · intro hne
    unfold initiate_payment
    rw [hd]
    dsimp only
    have hb : (d.status != DealStatus.created) = true := by simp [hne]
    rw [if_pos hb]
  · rw [hreg]
    rw [process_payment_proof_photo st _ id uid uuid rfl]
    simp [update_deal_status, create_payment_record]
  · rw [hreg]
    rw [process_payment_proof_photo st _ id uid uuid rfl]
    exact get_deal_after_update _ id DealStatus.funded d
      (by rw [get_deal_after_payment]; exact hd)

/-- Witness for C10 on a concrete completed deal: regenerate-QR opens the
proof session although payment initiation rejects the deal, and the photo
proof then rewrites the completed deal to funded. -/
theorem C10_witness :
    get_deal (demoStore DealStatus.completed) "DEAL0001" =
      some (demoDeal DealStatus.completed) ∧
    (demoDeal DealStatus.completed).status ≠ DealStatus.created ∧
    initiate_payment (demoStore DealStatus.completed) clearedSession "DEAL0001" =
      ⟨demoStore DealStatus.completed, clearedSession, [msgNotAvailable], []⟩ ∧
    get_deal (process_payment_proof
        (regenerate_qr (demoStore DealStatus.completed) clearedSession "DEAL0001").store
        (regenerate_qr (demoStore DealStatus.completed) clearedSession "DEAL0001").session
        ⟨true, none, 42⟩ "u").store "DEAL0001" =
      some { demoDeal DealStatus.completed with status := DealStatus.funded } :=
  ⟨by decide, by decide,
    (C10_regenerate_ignores_status (demoStore DealStatus.completed) clearedSession
      "DEAL0001" (demoDeal DealStatus.completed) 42 "u" (by decide)).2.1 (by decide),
    (C10_regenerate_ignores_status (demoStore DealStatus.completed) clearedSession
      "DEAL0001" (demoDeal DealStatus.completed) 42 "u" (by decide)).2.2.2⟩

/-- C7: a valid description, a valid amount, valid terms and the confirm
signal create exactly one deal in the store, in status created, with the
confirmed amount, the collected description and terms, and a fresh
8-character id, and the session is cleared. -/
theorem C7_deal_creation_flow (st : Store) (s : Session) (uid : Nat)
    (uuid desc amt trm : String) (a : Rat)
    (hconv : s.conv = some ConvState.waiting_for_description)
    (hd1 : 10 ≤ pyLen (pyStrip desc)) (hd2 : pyLen (pyStrip desc) ≤ 500)
    (ha : parseFloat (removeCommas (pyStrip amt)) = some (PyFloat.num a))
    (ha1 : 100 ≤ a) (ha2 : a ≤ 500000)
    (ht1 : 20 ≤ pyLen (pyStrip trm)) (ht2 : pyLen (pyStrip trm) ≤ 1000)
    (hu : 8 ≤ pyLen uuid) :
    dealCreationFlow st s uid uuid desc amt trm =
      ⟨⟨st.deals ++
          [⟨genDealId uuid, uid, pyStrip desc, PyFloat.num a, pyStrip trm,
            DealStatus.created⟩],
          st.payments⟩,
        clearedSession, [msgDealCreated], [StoreWrite.createDealW (genDealId uuid)]⟩ ∧
    pyLen (genDealId uuid) = 8 := by
  constructor
  · simp only [dealCreationFlow]
    rw [process_description_accept st s desc (by omega) (by omega)]
    dsimp only
    rw [process_amount_accept st _ amt (PyFloat.num a) ha
      (by simp only [pfLt]; exact decide_eq_false (not_lt.mpr ha1))
      (by simp only [pfGt]; exact decide_eq_false (not_lt.mpr ha2))]
    dsimp only
    rw [process_terms_accept st _ trm (by omega) (by omega)]
    dsimp only
    unfold confirm_deal_creation create_deal genDealId
    rfl
  · unfold genDealId pyLen at *
    simp only [String.data]
    rw [List.length_map, List.length_take]
    omega

/-- Witness for C7: the concrete scenario with the 28-character description,
amount 15000 and 57-character terms creates the deal A1B2C3D4. -/
theorem C7_witness :
    (sessIn ConvState.waiting_for_description).conv =
      some ConvState.waiting_for_description ∧
    10 ≤ pyLen (pyStrip "Used mountain bike, 21-speed") ∧
    pyLen (pyStrip "Used mountain bike, 21-speed") ≤ 500 ∧
    parseFloat (removeCommas (pyStrip "15000")) =
      some (PyFloat.num (Rat.divInt 15000 1)) ∧
    (100 : Rat) ≤ Rat.divInt 15000 1 ∧ Rat.divInt 15000 1 ≤ 500000 ∧
    20 ≤ pyLen (pyStrip "Payment upfront, delivery in 3 days, 7-day return window") ∧
    pyLen (pyStrip "Payment upfront, delivery in 3 days, 7-day return window") ≤ 1000 ∧
    8 ≤ pyLen "a1b2c3d4-e5f6-7890" ∧
    dealCreationFlow emptyStore (sessIn ConvState.waiting_for_description) 7
        "a1b2c3d4-e5f6-7890" "Used mountain bike, 21-speed" "15000"
        "Payment upfront, delivery in 3 days, 7-day return window" =
      ⟨⟨[⟨genDealId "a1b2c3d4-e5f6-7890", 7, pyStrip "Used mountain bike, 21-speed",
          PyFloat.num (Rat.divInt 15000 1),
          pyStrip "Payment upfront, delivery in 3 days, 7-day return window",
          DealStatus.created⟩], []⟩,
        clearedSession, [msgDealCreated],
        [StoreWrite.createDealW (genDealId "a1b2c3d4-e5f6-7890")]⟩ :=
  ⟨by decide, by decide, by decide, by decide, by decide, by decide, by decide, by decide,
    by decide,
    (C7_deal_creation_flow emptyStore (sessIn ConvState.waiting_for_description) 7
      "a1b2c3d4-e5f6-7890" "Used mountain bike, 21-speed" "15000"
      "Payment upfront, delivery in 3 days, 7-day return window" (Rat.divInt 15000 1)
      (by decide) (by decide) (by decide) (by decide) (by decide) (by decide) (by decide)
      (by decide) (by decide)).1⟩

/-- C1 counterexample: the pair of status completed with the dispute trigger
is outside the transition table, yet create_dispute on a completed deal is
not rejected: it performs a status write and the deal becomes disputed, so
completed is not terminal. -/
theorem C1_counterexample :
    get_deal (demoStore DealStatus.completed) "DEAL0001" =
      some (demoDeal DealStatus.completed) ∧
    create_dispute (demoStore DealStatus.completed) clearedSession "DEAL0001" =
      ⟨demoStore DealStatus.disputed, clearedSession, [msgDisputeCreated],
        [StoreWrite.updateStatusW "DEAL0001" DealStatus.disputed]⟩ ∧
    get_deal (create_dispute (demoStore DealStatus.completed) clearedSession
        "DEAL0001").store "DEAL0001" = some (demoDeal DealStatus.disputed) := by
  decide

/-- C1 amended: release-payment rejects with a user-visible signal and
leaves everything unchanged when the deal is not funded, and moves a funded
deal to completed with exactly one status write; but dispute consults only
existence, payment proof consults only the session context, and the
operator actions consult only the allow-list, each performing its single
status write from any current status, so completed and cancelled are not
terminal. -/
theorem C1_transition_guards (cfg : AuthCfg) (st : Store) (s sp : Session)
    (id : String) (d : Deal) (uid : Nat) (uname uuid : String)
    (hd : get_deal st id = some d) :
    (d.status ≠ DealStatus.funded →
      release_payment st s id = ⟨st, s, [msgNotReadyForRelease], []⟩) ∧
    (d.status = DealStatus.funded →
      get_deal (release_payment st s id).store id =
        some { d with status := DealStatus.completed } ∧
      (release_payment st s id).writes = [StoreWrite.updateStatusW id DealStatus.completed]) ∧
    (get_deal (create_dispute st s id).store id =
        some { d with status := DealStatus.disputed } ∧
      (create_dispute st s id).writes = [StoreWrite.updateStatusW id DealStatus.disputed]) ∧
    (sp.data.deal_id = some id →
      get_deal (process_payment_proof st sp ⟨true, none, uid⟩ uuid).store id =
        some { d with status := DealStatus.funded } ∧
      (process_payment_proof st sp ⟨true, none, uid⟩ uuid).writes =
        [StoreWrite.createPaymentW id, StoreWrite.updateStatusW id DealStatus.funded]) ∧
    (is_admin cfg uid uname = true →
      get_deal (admin_resolve_dispute cfg st s uid uname id).store id =
        some { d with status := DealStatus.completed } ∧
      (admin_resolve_dispute cfg st s uid uname id).writes =
        [StoreWrite.updateStatusW id DealStatus.completed]) ∧
    (is_admin cfg uid uname = true →
      get_deal (admin_cancel_deal cfg st s uid uname id).store id =
        some { d with status := DealStatus.cancelled } ∧
      (admin_cancel_deal cfg st s uid uname id).writes =
        [StoreWrite.updateStatusW id DealStatus.cancelled]) := by
  refine ⟨?_, ?_, ?_, ?_, ?_, ?_⟩
  · intro hne
    unfold release_payment
    rw [hd]
    dsimp only
    have hb : (d.status != DealStatus.funded) = true := by simp [hne]
    rw [if_pos hb]
  · intro hf
    unfold release_payment
    rw [hd]
    dsimp only
    have hb : ¬ (d.status != DealStatus.funded) = true := by simp [hf]
    rw [if_neg hb]
    exact ⟨get_deal_after_update st id DealStatus.completed d hd, rfl⟩
  · unfold create_dispute
    rw [hd]
    dsimp only
    exact ⟨get_deal_after_update st id DealStatus.disputed d hd, rfl⟩
  · intro hidp
    rw [process_payment_proof_photo st sp id uid uuid hidp]
    exact ⟨get_deal_after_update _ id DealStatus.funded d
      (by rw [get_deal_after_payment]; exact hd), rfl⟩
  · intro ha
    unfold admin_resolve_dispute
    have hb : ¬ (!(is_admin cfg uid uname)) = true := by simp [ha]
    rw [if_neg hb]
    exact ⟨get_deal_after_update st id DealStatus.completed d hd, rfl⟩
  · intro ha
    unfold admin_cancel_deal
    have hb : ¬ (!(is_admin cfg uid uname)) = true := by simp [ha]
    rw [if_neg hb]
    exact ⟨get_deal_after_update st id DealStatus.cancelled d hd, rfl⟩

/-- Witness for C1 at a concrete completed deal: release is rejected, the
dispute trigger writes disputed, and an operator cancel rewrites the
completed deal to cancelled. -/
theorem C1_witness :
    get_deal (demoStore DealStatus.completed) "DEAL0001" =
      some (demoDeal DealStatus.completed) ∧
    (demoDeal DealStatus.completed).status ≠ DealStatus.funded ∧
    release_payment (demoStore DealStatus.completed) clearedSession "DEAL0001" =
      ⟨demoStore DealStatus.completed, clearedSession, [msgNotReadyForRelease], []⟩ ∧
    (create_dispute (demoStore DealStatus.completed) clearedSession "DEAL0001").writes =
      [StoreWrite.updateStatusW "DEAL0001" DealStatus.disputed] ∧
    is_admin demoCfg 99 "ops" = true ∧
    get_deal (admin_cancel_deal demoCfg (demoStore DealStatus.completed) clearedSession
        99 "ops" "DEAL0001").store "DEAL0001" =
      some { demoDeal DealStatus.completed with status := DealStatus.cancelled } :=
  ⟨by decide, by decide,
    (C1_transition_guards demoCfg (demoStore DealStatus.completed) clearedSession
      clearedSession "DEAL0001" (demoDeal DealStatus.completed) 99 "ops" "u"
      (by decide)).1 (by decide),
    ((C1_transition_guards demoCfg (demoStore DealStatus.completed) clearedSession
      clearedSession "DEAL0001" (demoDeal DealStatus.completed) 99 "ops" "u"
      (by decide)).2.2.1).2,
    by decide,
    ((C1_transition_guards demoCfg (demoStore DealStatus.completed) clearedSession
      clearedSession "DEAL0001" (demoDeal DealStatus.completed) 99 "ops" "u"
      (by decide)).2.2.2.2.2 (by decide)).1⟩

end EscrowBot
